import Mathlib

/-!
Verification development for the CubismNova auxiliary tooling:
a shallow embedding of the three Python scripts

* `src/tools/version/gen_version.py` (Version Stamper),
* `src/test/sandbox/Benchmarks/Kernel/Divergence/euler/submit.py` (Job Submitter),
* `src/test/sandbox/Benchmarks/Kernel/Divergence/post.py` (Benchmark Aggregator),

together with theorems settling the specification claims about them.
Python strings are modelled as Lean `String` (a list of characters),
files as a partial map from path to content, numbers as `Int`/`ℚ`,
and raised Python exceptions as `Except` errors.
-/

/-! ### Python string primitives -/

/-- Split a character list at every character satisfying `p`, keeping empty
fragments.  Models Python `str.split(sep)` for a one-character separator
(`p := (· = sep)`), which keeps empty pieces: `"".split('.') == ['']`. -/
def splitOnP (p : Char → Bool) : List Char → List (List Char)
  | [] => [[]]
  | a :: as =>
    let r := splitOnP p as
    if p a then [] :: r
    else
      match r with
      | [] => [[a]]
      | g :: gs => (a :: g) :: gs

/-- Model of Python `str.strip()`: remove leading and trailing whitespace. -/
def pyStrip (s : String) : String :=
  ⟨((s.data.dropWhile Char.isWhitespace).reverse.dropWhile Char.isWhitespace).reverse⟩

/-- Model of Python `str.split('.')`. -/
def pySplitDots (s : String) : List String :=
  (splitOnP (· = '.') s.data).map (fun l => (⟨l⟩ : String))

/-- Model of Python `str.split()` (no argument): split on whitespace runs,
discarding empty fragments, so `"".split() == []`. -/
def pySplitWs (s : String) : List String :=
  ((splitOnP Char.isWhitespace s.data).filter (· ≠ [])).map (fun l => (⟨l⟩ : String))

/-- Split a string into the fragments between newline characters
(Python `str.split('\n')`). -/
def pySplitNl (s : String) : List String :=
  (splitOnP (· = '\n') s.data).map (fun l => (⟨l⟩ : String))

/-- Model of Python `file.readline()` on a file with content `s`: the first
line, including its trailing newline when one is present. -/
def pyReadline (s : String) : String :=
  match pySplitNl s with
  | [] => ""
  | [l] => l
  | l :: _ :: _ => l ++ "\n"

/-- `Option`-valued map over a list, failing as soon as `f` fails. -/
def mapOpt (f : α → Option β) : List α → Option (List β)
  | [] => some []
  | a :: l =>
    match f a with
    | none => none
    | some b =>
      match mapOpt f l with
      | none => none
      | some bs => some (b :: bs)

/-- Numeric value of a list of decimal digit characters. -/
def digitsToNat (l : List Char) : Nat :=
  l.foldl (fun a c => a * 10 + (c.toNat - 48)) 0

/-- Model of Python `int(s)`: strip surrounding whitespace, accept an optional
sign followed by one or more decimal digits, raise `ValueError` (here: `none`)
otherwise.  (Digit-group underscores are not modelled; no claim uses them.) -/
def pyInt (s : String) : Option Int :=
  let t := (pyStrip s).data
  match t with
  | '-' :: ds =>
    if ds ≠ [] ∧ ds.all Char.isDigit then some (-(digitsToNat ds : Int)) else none
  | '+' :: ds =>
    if ds ≠ [] ∧ ds.all Char.isDigit then some (digitsToNat ds : Int) else none
  | ds =>
    if ds ≠ [] ∧ ds.all Char.isDigit then some (digitsToNat ds : Int) else none

/-- Decimal digit characters of `n`, most significant first (fuel-driven; any
fuel of at least the digit count of `n` yields the full numeral). -/
def natDecAux : Nat → Nat → List Char
  | 0, _ => []
  | fuel + 1, n =>
    if n < 10 then [Nat.digitChar n]
    else natDecAux fuel (n / 10) ++ [Nat.digitChar (n % 10)]

/-- Decimal numeral of a natural number (model of Python `'%d' % n`, `n ≥ 0`). -/
def natDec (n : Nat) : String := ⟨natDecAux (n + 1) n⟩

/-- Decimal numeral of an integer (model of Python `'%d' % n`). -/
def intDec (n : Int) : String :=
  if n < 0 then "-" ++ natDec n.natAbs else natDec n.toNat

/-- Left-pad `s` with character `c` to a minimum length `w`. -/
def padLeft (c : Char) (w : Nat) (s : String) : String :=
  ⟨List.replicate (w - s.data.length) c ++ s.data⟩

/-- Model of Python `'%04d' % n`: decimal numeral left-padded with zeros to a
minimum field width of 4; for negative `n` the sign counts towards the width
(`'%04d' % (-5) == '-005'`). -/
def format04d (n : Int) : String :=
  if n < 0 then "-" ++ padLeft '0' 3 (natDec n.natAbs)
  else padLeft '0' 4 (natDec n.toNat)

/-- Fuel-driven worker for `pyReplace`; fuel at least `s.length` suffices since
each step consumes at least one character of `s` when `old` is nonempty. -/
def pyReplaceAux (old new : List Char) : Nat → List Char → List Char
  | 0, s => s
  | fuel + 1, s =>
    match s with
    | [] => []
    | c :: rest =>
      if old.isPrefixOf s then new ++ pyReplaceAux old new fuel (s.drop old.length)
      else c :: pyReplaceAux old new fuel rest

/-- Model of Python `s.replace(old, new)`: replace every occurrence of `old`
left to right, without rescanning replaced text (non-cascading).  An empty
`old` inserts `new` before every character and at the end, as in Python. -/
def pyReplace (s old new : String) : String :=
  match old.data with
  | [] => ⟨new.data ++ (s.data.map (fun c => c :: new.data)).flatten⟩
  | _ :: _ => ⟨pyReplaceAux old.data new.data s.data.length s.data⟩

/-! ### Filesystem, environment and error model -/

/-- A filesystem: a partial map from path to file content. -/
def FS : Type := String → Option String

/-- Writing a file (create or truncate-and-replace). -/
def FS.write (fs : FS) (p c : String) : FS :=
  fun q => if q = p then some c else fs q

/-- Model of `os.path.isfile`. -/
def FS.isfile (fs : FS) (p : String) : Bool := (fs p).isSome

/-- An environment-variable mapping (`os.environ`). -/
def Env : Type := String → Option String

/-- Setting an environment variable. -/
def Env.set (e : Env) (k v : String) : Env :=
  fun q => if q = k then some v else e q

/-- Model of `os.path.join(a, b)` for a nonempty `a` without trailing slash and
a relative `b`, the only shapes the scripts produce. -/
def pathJoin (a b : String) : String := a ++ "/" ++ b

/-- Python exceptions raised by the modelled code paths. -/
inductive PyErr : Type
  | fileNotFound          -- FileNotFoundError
  | valueError            -- ValueError
  | typeError             -- TypeError
  | unsupportedOperation  -- io.UnsupportedOperation ('not writable')
  deriving DecidableEq, Repr

/-- A dynamically typed Python value as it occurs in `gen_version.py`:
the variables `HEAD`/`SHA1` hold either a string or a list of strings. -/
inductive PyVal : Type
  | str (s : String)
  | list (l : List String)
  deriving DecidableEq, Repr

namespace GenVersion

/-- Embedding of `major, minor, patch = version.split('.')`
(`gen_version.py` line 28): tuple unpacking succeeds exactly for a
three-element list and raises `ValueError` otherwise. -/
def versionUnpack (version : String) : Except PyErr (String × String × String) :=
  match pySplitDots version with
  | [a, b, c] => .ok (a, b, c)
  | _ => .error .valueError

/-- Embedding of the head-resolution block of `gen_version.py` (lines 30-43).
Returns the final values of the Python variables `HEAD` and `SHA1`.  Note the
source's `else: SHA1 = HEAD` executes after `HEAD = HEAD.split()`, so in the
single-token branch both variables hold the whitespace-split *list*. -/
def gitHeadResolve (fs : FS) (project_root : String) : Except PyErr (PyVal × PyVal) :=
  let fHEAD := pathJoin (pathJoin project_root ".git") "HEAD"
  match fs fHEAD with
  | none => .ok (.str "", .str "")
  | some content =>
    let parts := pySplitWs (pyStrip content)
    if h : parts.length > 1 then
      let ref := parts.get ⟨1, h⟩
      match fs (pathJoin (pathJoin project_root ".git") ref) with
      | none => .error .fileNotFound
      | some sha => .ok (.str ref, .str (pyStrip sha))
    else
      .ok (.list parts, .list parts)

/-- Evaluation of `version_template.replace(old, arg)` where `arg` is a
dynamically typed Python value: a list argument raises `TypeError`. -/
def pyReplaceVal (s old : String) : PyVal → Except PyErr String
  | .str n => .ok (pyReplace s old n)
  | .list _ => .error .typeError

/-- Embedding of `main` of `gen_version.py` (lines 24-52), faithful to the
source: the results of the three `replace` calls are evaluated and then
discarded (the source never rebinds `version_template`), and the output path
is opened in mode `'r'`, so the final `write` raises
`io.UnsupportedOperation` when the file exists and the `open` itself raises
`FileNotFoundError` when it does not.  On success the function would return
the new filesystem; no execution reaches that point. -/
def main (fs : FS) (input output project_root : String) : Except PyErr FS :=
  match fs (pathJoin project_root "VERSION") with
  | none => .error .fileNotFound
  | some vraw =>
    let version := pyStrip vraw
    match versionUnpack version with
    | .error e => .error e
    | .ok _mmp =>
      match gitHeadResolve fs project_root with
      | .error e => .error e
      | .ok (hd, sha) =>
        match fs input with
        | none => .error .fileNotFound
        | some version_template =>
          match pyReplaceVal version_template "@VERSION@" (.str version) with
          | .error e => .error e
          | .ok _ =>
            match pyReplaceVal version_template "@HEAD@" hd with
            | .error e => .error e
            | .ok _ =>
              match pyReplaceVal version_template "@SHA1@" sha with
              | .error e => .error e
              | .ok _ =>
                match fs output with
                | none => .error .fileNotFound
                | some _ => .error .unsupportedOperation

end GenVersion

namespace Submit

/-- The temp-log path built in `submit.py` line 46:
`"%s/.<euler-div-kernel-512_%s_%s_%s>.tmp" % (loghome, date, time, id)`
with `loghome = "."` (set on line 31, read back on line 47). -/
def tmpLogPath (date time id : String) : String :=
  "./.<euler-div-kernel-512_" ++ date ++ "_" ++ time ++ "_" ++ id ++ ">.tmp"

/-- The observable outcome of one run of `submit.py`: the final filesystem,
the final process environment, and the Python process's exit code
(`0` when the script runs to completion, `1` on an uncaught exception). -/
structure SubmitOut : Type where
  fs : FS
  env : Env
  exit : Nat

/-- Embedding of `submit.py` lines 42-61: everything after the job counter has
been resolved to `count`.  Sets `JC_JOBID`/`JC_JOBDATE`/`JC_JOBTIME`, writes
the three-line temp log, sets `JC_JOBTMP` and spawns the scheduler command.
`child = some code` models a successfully spawned subprocess exiting with
`code`; `child = none` models `subprocess.Popen` raising (failure to start).
The result of `.wait()` is discarded by the source, so a completed run exits
with code `0` regardless of `code`. -/
def afterCount (fs : FS) (env : Env) (date time : String) (child : Option Nat)
    (count : Int) : SubmitOut :=
  let jobid := format04d count
  let env := Env.set env "JC_JOBID" jobid
  let env := Env.set env "JC_JOBDATE" date
  let env := Env.set env "JC_JOBTIME" time
  let tmplogfile := tmpLogPath date time jobid
  let fs := FS.write fs tmplogfile (date ++ "\n" ++ time ++ "\n" ++ jobid ++ "\n")
  let env := Env.set env "JC_JOBTMP" tmplogfile
  match child with
  | some _code => ⟨fs, env, 0⟩
  | none => ⟨fs, env, 1⟩

/-- Embedding of the `common.sh` branch of `submit.py` (lines 25-61).  `env`
is the environment dumped by the sourced subshell (line 27), which replaces
the process environment (line 28).  `JC_LOGHOME` is set to `"."` and the
counter file path is `"%s/.count" % loghome`, i.e. `"./.count"`. -/
def commonBranch (fs : FS) (env : Env) (date time : String) (child : Option Nat) :
    SubmitOut :=
  let loghome := "."
  let env := Env.set env "JC_LOGHOME" loghome
  let countfile := loghome ++ "/.count"
  match fs countfile with
  | some content =>
    match pyInt (pyReadline content) with
    | none => ⟨fs, env, 1⟩  -- int() raises ValueError: uncaught, exit 1
    | some count =>
      let fs := FS.write fs countfile (intDec (count + 1))
      afterCount fs env date time child count
  | none =>
    let fs := FS.write fs countfile "2"
    afterCount fs env date time child 1

/-- Embedding of the `__main__` block of `submit.py` (lines 18-64).
`env0` is the process environment at start, `cwd` the `--cwd` argument,
`senv` the environment dumped by sourcing `./common.sh` (used only when that
file exists), `date`/`time` the formatted timestamp captured once at start,
and `child` the spawned scheduler subprocess's behaviour. -/
def main (fs : FS) (env0 : Env) (cwd : String) (senv : Env) (date time : String)
    (child : Option Nat) : SubmitOut :=
  let env := Env.set env0 "JC_JOBWD" cwd
  if FS.isfile fs "./common.sh" then
    commonBranch fs senv date time child
  else
    match child with
    | some _code => ⟨fs, env, 0⟩
    | none => ⟨fs, env, 1⟩

end Submit

namespace Post

/-- Digit-level decomposition of an unsigned decimal literal, e.g. `"4"` or
`"1.0"`: whole part, fractional digits value, and fractional digit count. -/
def parseDecUnsigned (s : String) : Option (Nat × Nat × Nat) :=
  match pySplitDots s with
  | [i] =>
    if i.data ≠ [] ∧ i.data.all Char.isDigit then some (digitsToNat i.data, 0, 0) else none
  | [i, f] =>
    if i.data ≠ [] ∧ i.data.all Char.isDigit ∧ f.data ≠ [] ∧ f.data.all Char.isDigit then
      some (digitsToNat i.data, digitsToNat f.data, f.data.length)
    else none
  | _ => none

/-- Digit-level decomposition of a decimal literal with optional sign. -/
def parseDecParts (s : String) : Option (Bool × Nat × Nat × Nat) :=
  match s.data with
  | '-' :: rest => (parseDecUnsigned ⟨rest⟩).map (fun p => (true, p))
  | '+' :: rest => (parseDecUnsigned ⟨rest⟩).map (fun p => (false, p))
  | _ => (parseDecUnsigned s).map (fun p => (false, p))

/-- Rational value of a digit-level decomposition. -/
def decValue (p : Bool × Nat × Nat × Nat) : ℚ :=
  let v : ℚ := (p.2.1 : ℚ) + (p.2.2.1 : ℚ) / (10 : ℚ) ^ p.2.2.2
  if p.1 then -v else v

/-- Rational value of a decimal literal (model of the numeric parsing done by
`pandas.read_csv` on a float column, restricted to plain signed decimal
forms, the only ones the claims use). -/
def parseRat (s : String) : Option ℚ :=
  (parseDecParts s).map decValue

/-- One data row: exactly five whitespace-separated numeric fields, matching
`pd.read_csv(f, sep='\s+', names=["blocks","t_init","t_comp","t_dump","t_tot"])`. -/
def parseLine (s : String) : Option (List ℚ) :=
  let toks := pySplitWs s
  if toks.length = 5 then mapOpt parseRat toks else none

/-- Parse a whole input file: blank lines are skipped (pandas default), an
empty file or any malformed row is a fatal parse error (`none`). -/
def parseCSV (content : String) : Option (List (List ℚ)) :=
  let lines := (pySplitNl content).filter (fun l => pyStrip l ≠ "")
  if lines.isEmpty then none else mapOpt parseLine lines

/-- The `mean` row of `df.describe()`: per-column arithmetic mean. -/
def meanRow (rows : List (List ℚ)) : List ℚ :=
  (List.transpose rows).map (fun col => col.sum / (col.length : ℚ))

/-- Rendering of a rational number used by the text renderers below. -/
def ratDec (q : ℚ) : String :=
  if q.den = 1 then intDec q.num else intDec q.num ++ "/" ++ natDec q.den

/-- Stand-in for `df.describe().to_string()`: the statistics block appended to
each input file.  The exact characters of this block are a simplified
rendering (pandas' float formatting and the sample standard deviation are not
reproduced); no claim depends on them -- only on the fact that this text is
*appended* to the file. -/
def describeToString (rows : List (List ℚ)) : String :=
  "count " ++ natDec rows.length ++ "\nmean " ++
    String.intercalate " " ((meanRow rows).map ratDec)

/-- Stand-in for `da.to_string(index=False)`: the summary table text, a header
line naming the five columns followed by one line per row.  Only the fact
that it begins with the column-header line (as pandas' output does) and is
determined by the row list matters to the claims. -/
def summaryToString (da : List (List ℚ)) : String :=
  "blocks t_init t_comp t_dump t_tot" ++
    String.join (da.map (fun r => "\n" ++ String.intercalate " " (r.map ratDec)))

/-- Model of Python `sorted` on a list of strings: the unique permutation
sorted by the lexicographic (code-point) order.  `List.insertionSort` produces
exactly that list. -/
def pySorted (l : List String) : List String :=
  List.insertionSort (· ≤ ·) l

/-- Embedding of the per-file loop of `post.py` `main` (lines 23-28), already
given the sorted file list: read and parse each file, accumulate its mean row
into `da`, and append the statistics block to the file itself (mode `'a'`).
A missing or unparsable file is a fatal error that stops the loop, leaving
the appends performed so far in place. -/
def loop (fs : FS) (da : List (List ℚ)) : List String → FS × Except Unit (List (List ℚ))
  | [] => (fs, .ok da)
  | f :: rest =>
    match fs f with
    | none => (fs, .error ())
    | some content =>
      match parseCSV content with
      | none => (fs, .error ())
      | some rows =>
        let fs := FS.write fs f (content ++ describeToString rows)
        loop fs (da ++ [meanRow rows]) rest

/-- Embedding of `main` of `post.py` (lines 19-30): process `--files` in
sorted order, then write the summary table to `--output` (mode `'w'`,
truncating).  Returns the final filesystem and, on success, the summary
table's rows. -/
def main (fs : FS) (files : List String) (output : String) :
    FS × Option (List (List ℚ)) :=
  match loop fs [] (pySorted files) with
  | (fs', .error _) => (fs', none)
  | (fs', .ok da) => (FS.write fs' output (summaryToString da), some da)

end Post

/-! ### Helper lemmas -/

theorem FS.write_self (fs : FS) (p c : String) : FS.write fs p c p = some c := by
  simp [FS.write]

theorem FS.write_other (fs : FS) {p q : String} (c : String) (h : q ≠ p) :
    FS.write fs p c q = fs q := by
  simp [FS.write, h]

theorem Env.set_self (e : Env) (k v : String) : Env.set e k v k = some v := by
  simp [Env.set]

theorem Env.set_other (e : Env) {k q : String} (v : String) (h : q ≠ k) :
    Env.set e k v q = e q := by
  simp [Env.set, h]

/-- The temp-log path can never collide with the counter file: their fourth
characters differ whatever the date, time and job id are. -/
theorem tmpLogPath_ne_count (d t i : String) : Submit.tmpLogPath d t i ≠ "./.count" := by
  intro h
  have h2 : (Submit.tmpLogPath d t i).data = "./.count".data := congrArg String.data h
  simp only [Submit.tmpLogPath, String.data_append] at h2
  simp only [List.cons_append, List.append_assoc] at h2
  injection h2 with _ h2
  injection h2 with _ h2
  injection h2 with _ h2
  injection h2 with h2 _
  exact absurd h2 (by decide)

theorem natDecAux_length_le (fuel : Nat) : ∀ n d : Nat, 1 ≤ d → n < 10 ^ d →
    (natDecAux fuel n).length ≤ d := by
  induction fuel with
  | zero => intro n d _ _; simp [natDecAux]
  | succ f ih =>
    intro n d hd hn
    rw [natDecAux]
    by_cases h10 : n < 10
    · simp [h10]; exact hd
    · simp only [h10, if_false, List.length_append, List.length_cons, List.length_nil]
      have hd2 : 2 ≤ d := by
        rcases Nat.lt_or_ge d 2 with h | h
        · exfalso
          have hd1 : d = 1 := by omega
          rw [hd1] at hn; simp at hn; omega
        · exact h
      have hdiv : n / 10 < 10 ^ (d - 1) := by
        have hpow : 10 ^ (d - 1) * 10 = 10 ^ d := by
          rw [← pow_succ]; congr 1; omega
        have := (Nat.div_lt_iff_lt_mul (by norm_num : 0 < 10)).mpr (hpow ▸ hn)
        exact this
      have := ih (n / 10) (d - 1) (by omega) hdiv
      omega

theorem format04d_length {n : Int} (h0 : 0 ≤ n) (h : n < 10000) :
    (format04d n).length = 4 := by
  rw [format04d, if_neg (by omega)]
  have hlt : n.toNat < 10 ^ 4 := by omega
  have hle := natDecAux_length_le (n.toNat + 1) n.toNat 4 (by norm_num) hlt
  show (padLeft '0' 4 (natDec n.toNat)).data.length = 4
  simp only [padLeft, natDec, List.length_append, List.length_replicate]
  omega

theorem pySorted_perm (l : List String) : List.Perm (Post.pySorted l) l :=
  List.perm_insertionSort _ l

theorem pySorted_sorted (l : List String) : List.Sorted (· ≤ ·) (Post.pySorted l) :=
  List.sorted_insertionSort _ l

theorem pySorted_eq_of_perm {l1 l2 : List String} (h : List.Perm l1 l2) :
    Post.pySorted l1 = Post.pySorted l2 :=
  List.eq_of_perm_of_sorted ((pySorted_perm l1).trans (h.trans (pySorted_perm l2).symm))
    (pySorted_sorted l1) (pySorted_sorted l2)

theorem pySorted_pair {f1 f2 : String} (h : f1 < f2) :
    Post.pySorted [f2, f1] = [f1, f2] :=
  List.eq_of_perm_of_sorted ((pySorted_perm _).trans (List.Perm.swap f1 f2 []))
    (pySorted_sorted _)
    (List.sorted_cons.mpr
      ⟨fun b hb => by rw [List.mem_singleton] at hb; rw [hb]; exact le_of_lt h,
       List.sorted_singleton f2⟩)

theorem parseRat_tok4 : Post.parseRat "4" = some 4 := by
  have h : Post.parseDecParts "4" = some (false, 4, 0, 0) := by decide
  rw [Post.parseRat, h]
  norm_num [Post.decValue]

theorem parseRat_tok1 : Post.parseRat "1.0" = some 1 := by
  have h : Post.parseDecParts "1.0" = some (false, 1, 0, 1) := by decide
  rw [Post.parseRat, h]
  norm_num [Post.decValue]

theorem parseRat_tok2 : Post.parseRat "2.0" = some 2 := by
  have h : Post.parseDecParts "2.0" = some (false, 2, 0, 1) := by decide
  rw [Post.parseRat, h]
  norm_num [Post.decValue]

theorem parseRat_tok3 : Post.parseRat "3.0" = some 3 := by
  have h : Post.parseDecParts "3.0" = some (false, 3, 0, 1) := by decide
  rw [Post.parseRat, h]
  norm_num [Post.decValue]

theorem parseRat_tok6 : Post.parseRat "6.0" = some 6 := by
  have h : Post.parseDecParts "6.0" = some (false, 6, 0, 1) := by decide
  rw [Post.parseRat, h]
  norm_num [Post.decValue]

theorem parseLine_sample : Post.parseLine "4 1.0 2.0 3.0 6.0" = some [4, 1, 2, 3, 6] := by
  have htoks : pySplitWs "4 1.0 2.0 3.0 6.0" = ["4", "1.0", "2.0", "3.0", "6.0"] := by decide
  simp only [Post.parseLine, htoks]
  norm_num [mapOpt, parseRat_tok4, parseRat_tok1, parseRat_tok2, parseRat_tok3, parseRat_tok6]

theorem parseCSV_sample : Post.parseCSV "4 1.0 2.0 3.0 6.0" = some [[4, 1, 2, 3, 6]] := by
  have hlines : ((pySplitNl "4 1.0 2.0 3.0 6.0").filter (fun l => pyStrip l ≠ ""))
      = ["4 1.0 2.0 3.0 6.0"] := by decide
  simp only [Post.parseCSV, hlines]
  norm_num [mapOpt, parseLine_sample]

theorem meanRow_single (a b c d e : ℚ) :
    Post.meanRow [[a, b, c, d, e]] = [a, b, c, d, e] := by
  show List.map _ (List.transpose [[a, b, c, d, e]]) = _
  rw [show List.transpose [[a, b, c, d, e]] = [[a], [b], [c], [d], [e]] from rfl]
  norm_num

/-- Processing the file list only ever appends to existing files: the content
of any file before the loop is an initial segment of its content afterwards,
whether or not the loop runs to completion. -/
theorem loop_extends : ∀ (l : List String) (fs : FS) (da : List (List ℚ)) (g s : String),
    fs g = some s → ∃ t, (Post.loop fs da l).1 g = some (s ++ t) := by
  intro l
  induction l with
  | nil =>
    intro fs da g s h
    exact ⟨"", by simpa [Post.loop] using h⟩
  | cons f rest ih =>
    intro fs da g s h
    cases hf : fs f with
    | none =>
      refine ⟨"", ?_⟩
      simp only [Post.loop, hf]
      simpa using h
    | some content =>
      cases hp : Post.parseCSV content with
      | none =>
        refine ⟨"", ?_⟩
        simp only [Post.loop, hf, hp]
        simpa using h
      | some rows =>
        have hstep : Post.loop fs da (f :: rest)
            = Post.loop (FS.write fs f (content ++ Post.describeToString rows))
                (da ++ [Post.meanRow rows]) rest := by
          simp only [Post.loop, hf, hp]
        rw [hstep]
        by_cases hg : g = f
        · subst hg
          have hcs : content = s := by rw [hf] at h; exact Option.some_inj.mp h
          subst hcs
          obtain ⟨t, ht⟩ := ih (FS.write fs g (content ++ Post.describeToString rows))
            (da ++ [Post.meanRow rows]) g (content ++ Post.describeToString rows)
            (FS.write_self ..)
          exact ⟨Post.describeToString rows ++ t, by rw [ht, String.append_assoc]⟩
        · exact ih _ _ g s (by rw [FS.write_other _ _ hg]; exact h)

theorem submit_common (fs : FS) (env0 senv : Env) (cwd d t : String) (child : Option Nat)
    (hc : FS.isfile fs "./common.sh" = true) :
    Submit.main fs env0 cwd senv d t child = Submit.commonBranch fs senv d t child := by
  rw [Submit.main.eq_def]
  simp only [hc, if_true]

theorem commonBranch_absent (fs : FS) (senv : Env) (d t : String) (child : Option Nat)
    (h : fs "./.count" = none) :
    Submit.commonBranch fs senv d t child
      = Submit.afterCount (FS.write fs "./.count" "2")
          (Env.set senv "JC_LOGHOME" ".") d t child 1 := by
  rw [Submit.commonBranch]
  simp only [show ("." ++ "/.count" : String) = "./.count" from rfl, h]

theorem commonBranch_present (fs : FS) (senv : Env) (d t : String) (child : Option Nat)
    (s : String) (n : Int) (h : fs "./.count" = some s)
    (hn : pyInt (pyReadline s) = some n) :
    Submit.commonBranch fs senv d t child
      = Submit.afterCount (FS.write fs "./.count" (intDec (n + 1)))
          (Env.set senv "JC_LOGHOME" ".") d t child n := by
  rw [Submit.commonBranch]
  simp only [show ("." ++ "/.count" : String) = "./.count" from rfl, h, hn]

theorem afterCount_fs (fs : FS) (env : Env) (d t : String) (child : Option Nat)
    (count : Int) :
    (Submit.afterCount fs env d t child count).fs
      = FS.write fs (Submit.tmpLogPath d t (format04d count))
          (d ++ "\n" ++ t ++ "\n" ++ format04d count ++ "\n") := by
  rw [Submit.afterCount.eq_def]
  cases child <;> rfl

theorem afterCount_env_jobid (fs : FS) (env : Env) (d t : String) (child : Option Nat)
    (count : Int) :
    (Submit.afterCount fs env d t child count).env "JC_JOBID"
      = some (format04d count) := by
  rw [Submit.afterCount.eq_def]
  cases child <;> simp [Env.set]

theorem afterCount_exit_spawned (fs : FS) (env : Env) (d t : String) (k : Nat)
    (count : Int) :
    (Submit.afterCount fs env d t (some k) count).exit = 0 := rfl

/-! ### Claims about the Version Stamper (`gen_version.py`) -/

/-- C1: the claim states that the content written to the output path equals
the template with `@VERSION@`/`@HEAD@`/`@SHA1@` substituted, and that on the
concrete input (VERSION `1.2.3`, no `.git`, template `v@VERSION@
(@HEAD@/@SHA1@)`, output absent) the output content is `v1.2.3 (/)`.  The
code cannot do this: it discards the results of the three `str.replace`
calls and opens the output path in read mode before writing, so on this very
input it raises `FileNotFoundError` (or `io.UnsupportedOperation` when the
output file already exists) and writes nothing.  The second conjunct records
that the substitution the claim describes would indeed produce `v1.2.3 (/)`
-- the value the source computes and throws away. -/
theorem claim_C1 :
    GenVersion.main
        (fun q => if q = "./VERSION" then some "1.2.3"
          else if q = "./template.in" then some "v@VERSION@ (@HEAD@/@SHA1@)" else none)
        "./template.in" "./version.out" "." = .error .fileNotFound ∧
    pyReplace (pyReplace (pyReplace "v@VERSION@ (@HEAD@/@SHA1@)" "@VERSION@" "1.2.3")
        "@HEAD@" "") "@SHA1@" "" = "v1.2.3 (/)" :=
  ⟨rfl, by decide⟩

/-- C4: head resolution.  The multi-token branch and the missing-`.git/HEAD`
branch behave as claimed (first two conjuncts).  The single-token branch does
not: `SHA1 = HEAD` executes after `HEAD = HEAD.split()`, so both variables
hold the one-element *list* `['abc123']`, not the token `'abc123'` the claim
(and clearly the author) intended; the subsequent
`version_template.replace('@HEAD@', HEAD)` then raises `TypeError` (last
conjunct), so the script can never have meant the list. -/
theorem claim_C4 :
    GenVersion.gitHeadResolve
        (fun q => if q = "./.git/HEAD" then some "ref: refs/heads/main\n"
          else if q = "./.git/refs/heads/main" then some "deadbeef\n" else none) "."
      = .ok (.str "refs/heads/main", .str "deadbeef") ∧
    GenVersion.gitHeadResolve (fun _ => none) "." = .ok (.str "", .str "") ∧
    GenVersion.gitHeadResolve
        (fun q => if q = "./.git/HEAD" then some "abc123\n" else none) "."
      = .ok (.list ["abc123"], .list ["abc123"]) ∧
    PyVal.list ["abc123"] ≠ PyVal.str "abc123" ∧
    GenVersion.main
        (fun q => if q = "./VERSION" then some "1.2.3"
          else if q = "./.git/HEAD" then some "abc123\n"
          else if q = "./template.in" then some "v@VERSION@ (@HEAD@/@SHA1@)" else none)
        "./template.in" "./version.out" "." = .error .typeError :=
  ⟨rfl, rfl, rfl, by decide, rfl⟩

/-- C5: version validation.  If the stripped `VERSION` content does not split
on `.` into exactly three components, `main` terminates with the fatal
`ValueError` raised by the tuple unpacking (no silent default); with exactly
three components the unpacking succeeds and yields them as
(major, minor, patch). -/
theorem claim_C5 (fs : FS) (input output project_root vraw : String)
    (hv : fs (pathJoin project_root "VERSION") = some vraw) :
    ((pySplitDots (pyStrip vraw)).length ≠ 3 →
      GenVersion.main fs input output project_root = .error .valueError) ∧
    (∀ a b c, pySplitDots (pyStrip vraw) = [a, b, c] →
      GenVersion.versionUnpack (pyStrip vraw) = .ok (a, b, c)) := by
  constructor
  · intro hlen
    have hu : GenVersion.versionUnpack (pyStrip vraw) = .error .valueError := by
      rw [GenVersion.versionUnpack]
      cases hsp : pySplitDots (pyStrip vraw) with
      | nil => rfl
      | cons a l1 =>
        cases l1 with
        | nil => rfl
        | cons b l2 =>
          cases l2 with
          | nil => rfl
          | cons c l3 =>
            cases l3 with
            | nil => exact absurd (by rw [hsp]; rfl) hlen
            | cons d l4 => rfl
    rw [GenVersion.main]
    simp only [hv, hu]
  · intro a b c hsp
    rw [GenVersion.versionUnpack, hsp]

/-- Witness for C5 at the spec's own test input: a `VERSION` file containing
`1.2` makes the Version Stamper fail with `ValueError`. -/
theorem claim_C5_witness :
    GenVersion.main (fun q => if q = "./VERSION" then some "1.2" else none)
      "./template.in" "./version.out" "." = .error .valueError :=
  (claim_C5 (fun q => if q = "./VERSION" then some "1.2" else none)
    "./template.in" "./version.out" "." "1.2" (by decide)).1 (by decide)

/-! ### Claims about the Job Submitter (`submit.py`) -/

/-- C2, counterexample: a run with no `common.sh` whose spawned scheduler
subprocess exits with code 1 makes the Job Submitter itself exit with code 0,
not 1: the result of `.wait()` is discarded and the script simply runs to
completion, so the claimed exit-code propagation does not happen. -/
theorem claim_C2_counterexample :
    (Submit.main (fun _ => none) (fun _ => none) "." (fun _ => none)
        "2026-10-12" "12:00" (some 1)).exit = 0 ∧
    (Submit.main (fun _ => none) (fun _ => none) "." (fun _ => none)
        "2026-10-12" "12:00" (some 1)).exit ≠ 1 :=
  ⟨rfl, by decide⟩

/-- C2, amended: whenever the scheduler subprocess is successfully spawned
(and the run raises no exception earlier, i.e. any existing `.count` file
parses as an integer), the Job Submitter exits with code 0 regardless of the
subprocess's exit code `N`: `.wait()`'s result is discarded and no exit-code
propagation occurs. -/
theorem claim_C2_amended (fs : FS) (env0 senv : Env) (cwd d t : String) (N : Nat)
    (hcount : ∀ s, fs "./.count" = some s → (pyInt (pyReadline s)).isSome = true) :
    (Submit.main fs env0 cwd senv d t (some N)).exit = 0 := by
  by_cases hc : FS.isfile fs "./common.sh" = true
  · rw [submit_common fs env0 senv cwd d t (some N) hc]
    cases hcf : fs "./.count" with
    | none =>
      rw [commonBranch_absent _ _ _ _ _ hcf]
      exact afterCount_exit_spawned ..
    | some s =>
      obtain ⟨n, hn⟩ := Option.isSome_iff_exists.mp (hcount s hcf)
      rw [commonBranch_present _ _ _ _ _ s n hcf hn]
      exact afterCount_exit_spawned ..
  · rw [Submit.main.eq_def]
    simp only [Bool.not_eq_true] at hc
    simp [hc]

/-- Witness for the amended C2: a concrete run (no `common.sh`, no `.count`,
child exit code 7) exits with code 0. -/
theorem claim_C2_amended_witness :
    (Submit.main (fun _ => none) (fun _ => none) "." (fun _ => none)
        "2026-10-12" "12:00" (some 7)).exit = 0 :=
  claim_C2_amended (fun _ => none) (fun _ => none) (fun _ => none) "."
    "2026-10-12" "12:00" 7 (fun _ h => nomatch h)

/-- C3: job-counter bookkeeping when `./common.sh` exists.  With no `.count`
file the run writes `2` and assigns job id `0001`; with `.count` containing
`2` it writes `3` and assigns `0002`; in general a run reading counter value
`n` assigns job id `'%04d' % n` and writes back `n + 1`. -/
theorem claim_C3 (fs : FS) (env0 senv : Env) (cwd d t : String) (child : Option Nat)
    (hc : FS.isfile fs "./common.sh" = true) :
    (fs "./.count" = none →
      (Submit.main fs env0 cwd senv d t child).fs "./.count" = some "2" ∧
      (Submit.main fs env0 cwd senv d t child).env "JC_JOBID" = some "0001") ∧
    (fs "./.count" = some "2" →
      (Submit.main fs env0 cwd senv d t child).fs "./.count" = some "3" ∧
      (Submit.main fs env0 cwd senv d t child).env "JC_JOBID" = some "0002") ∧
    (∀ s n, fs "./.count" = some s → pyInt (pyReadline s) = some n →
      (Submit.main fs env0 cwd senv d t child).fs "./.count" = some (intDec (n + 1)) ∧
      (Submit.main fs env0 cwd senv d t child).env "JC_JOBID" = some (format04d n)) := by
  refine ⟨?_, ?_, ?_⟩
  · intro h
    rw [submit_common fs env0 senv cwd d t child hc, commonBranch_absent _ _ _ _ _ h]
    constructor
    · rw [afterCount_fs, FS.write_other _ _ (tmpLogPath_ne_count d t (format04d 1)).symm]
      exact FS.write_self ..
    · rw [afterCount_env_jobid]; rfl
  · intro h
    rw [submit_common fs env0 senv cwd d t child hc,
        commonBranch_present _ _ _ _ _ "2" 2 h (by decide)]
    constructor
    · rw [afterCount_fs, FS.write_other _ _ (tmpLogPath_ne_count d t (format04d 2)).symm]
      exact FS.write_self ..
    · rw [afterCount_env_jobid]; rfl
  · intro s n hs hn
    rw [submit_common fs env0 senv cwd d t child hc,
        commonBranch_present _ _ _ _ _ s n hs hn]
    constructor
    · rw [afterCount_fs, FS.write_other _ _ (tmpLogPath_ne_count d t (format04d n)).symm]
      exact FS.write_self ..
    · rw [afterCount_env_jobid]

/-- Witness for C3: a concrete run with `common.sh` present and no `.count`
file leaves `.count` containing `2` and job id `0001` in the environment. -/
theorem claim_C3_witness :
    (Submit.main (fun q => if q = "./common.sh" then some "" else none)
        (fun _ => none) "." (fun _ => none) "2026-10-12" "12:00" (some 0)).fs "./.count"
      = some "2" ∧
    (Submit.main (fun q => if q = "./common.sh" then some "" else none)
        (fun _ => none) "." (fun _ => none) "2026-10-12" "12:00" (some 0)).env "JC_JOBID"
      = some "0001" :=
  (claim_C3 (fun q => if q = "./common.sh" then some "" else none)
    (fun _ => none) (fun _ => none) "." "2026-10-12" "12:00" (some 0) rfl).1 rfl

/-- C8, counterexample: a run reading counter value `10000` places the job id
`"10000"` in the environment, a five-character string -- the id is *not*
zero-padded to exactly 4 digits for every counter value. -/
theorem claim_C8_counterexample :
    (Submit.main
        (fun q => if q = "./common.sh" then some ""
          else if q = "./.count" then some "10000" else none)
        (fun _ => none) "." (fun _ => none) "2026-10-12" "12:00" (some 0)).env "JC_JOBID"
      = some "10000" ∧
    ¬ (("10000" : String).length = 4) :=
  ⟨rfl, by decide⟩

/-- C8, amended: the job id placed in the environment (and written as the
third line of the temp log) is `'%04d' % n`: the decimal numeral of the
counter value left-padded with zeros to a *minimum* field width of 4 -- so it
has exactly 4 digits for counter values 0-9999, and more characters for
larger values. -/
theorem claim_C8_amended (fs : FS) (env0 senv : Env) (cwd d t : String)
    (child : Option Nat) (s : String) (n : Int)
    (hc : FS.isfile fs "./common.sh" = true)
    (hs : fs "./.count" = some s) (hn : pyInt (pyReadline s) = some n) :
    (Submit.main fs env0 cwd senv d t child).env "JC_JOBID" = some (format04d n) ∧
    (Submit.main fs env0 cwd senv d t child).fs (Submit.tmpLogPath d t (format04d n))
      = some (d ++ "\n" ++ t ++ "\n" ++ format04d n ++ "\n") ∧
    (0 ≤ n → n < 10000 → (format04d n).length = 4) := by
  rw [submit_common fs env0 senv cwd d t child hc,
      commonBranch_present _ _ _ _ _ s n hs hn]
  refine ⟨afterCount_env_jobid .., ?_, fun h0 h4 => format04d_length h0 h4⟩
  rw [afterCount_fs]
  exact FS.write_self ..

/-- Witness for the amended C8: counter value 41 yields job id `0041`. -/
theorem claim_C8_amended_witness :
    (Submit.main
        (fun q => if q = "./common.sh" then some ""
          else if q = "./.count" then some "41" else none)
        (fun _ => none) "." (fun _ => none) "2026-10-12" "12:00" (some 0)).env "JC_JOBID"
      = some (format04d 41) ∧
    (Submit.main
        (fun q => if q = "./common.sh" then some ""
          else if q = "./.count" then some "41" else none)
        (fun _ => none) "." (fun _ => none) "2026-10-12" "12:00" (some 0)).fs
        (Submit.tmpLogPath "2026-10-12" "12:00" (format04d 41))
      = some ("2026-10-12" ++ "\n" ++ "12:00" ++ "\n" ++ format04d 41 ++ "\n") ∧
    (0 ≤ (41 : Int) → (41 : Int) < 10000 → (format04d 41).length = 4) :=
  claim_C8_amended
    (fun q => if q = "./common.sh" then some ""
      else if q = "./.count" then some "41" else none)
    (fun _ => none) (fun _ => none) "." "2026-10-12" "12:00" (some 0) "41" 41
    rfl rfl (by decide)

/-- C9: when `./common.sh` exists (and the counter file parses), the
incremented counter and the temp log are written *before* the scheduler
command is spawned: the final filesystem is the same whatever the spawned
process does -- exiting with any code or failing to start -- and it contains
the incremented `.count` and the three-line temp log. -/
theorem claim_C9 (fs : FS) (env0 senv : Env) (cwd d t : String) (c1 c2 : Option Nat)
    (s : String) (n : Int) (hc : FS.isfile fs "./common.sh" = true)
    (hs : fs "./.count" = some s) (hn : pyInt (pyReadline s) = some n) :
    (Submit.main fs env0 cwd senv d t c1).fs = (Submit.main fs env0 cwd senv d t c2).fs ∧
    (Submit.main fs env0 cwd senv d t c1).fs "./.count" = some (intDec (n + 1)) ∧
    (Submit.main fs env0 cwd senv d t c1).fs (Submit.tmpLogPath d t (format04d n))
      = some (d ++ "\n" ++ t ++ "\n" ++ format04d n ++ "\n") := by
  rw [submit_common fs env0 senv cwd d t c1 hc, submit_common fs env0 senv cwd d t c2 hc,
      commonBranch_present fs senv d t c1 s n hs hn,
      commonBranch_present fs senv d t c2 s n hs hn]
  refine ⟨?_, ?_, ?_⟩
  · rw [afterCount_fs, afterCount_fs]
  · rw [afterCount_fs, FS.write_other _ _ (tmpLogPath_ne_count d t (format04d n)).symm]
    exact FS.write_self ..
  · rw [afterCount_fs]
    exact FS.write_self ..

/-- Witness for C9: concrete run with counter `41`; the final filesystem is
identical whether the child exits 1 or fails to start, and holds `.count` =
`42` and the temp log. -/
theorem claim_C9_witness :
    (Submit.main
        (fun q => if q = "./common.sh" then some ""
          else if q = "./.count" then some "41" else none)
        (fun _ => none) "." (fun _ => none) "2026-10-12" "12:00" (some 1)).fs
      = (Submit.main
        (fun q => if q = "./common.sh" then some ""
          else if q = "./.count" then some "41" else none)
        (fun _ => none) "." (fun _ => none) "2026-10-12" "12:00" none).fs ∧
    (Submit.main
        (fun q => if q = "./common.sh" then some ""
          else if q = "./.count" then some "41" else none)
        (fun _ => none) "." (fun _ => none) "2026-10-12" "12:00" (some 1)).fs "./.count"
      = some (intDec (41 + 1)) ∧
    (Submit.main
        (fun q => if q = "./common.sh" then some ""
          else if q = "./.count" then some "41" else none)
        (fun _ => none) "." (fun _ => none) "2026-10-12" "12:00" (some 1)).fs
        (Submit.tmpLogPath "2026-10-12" "12:00" (format04d 41))
      = some ("2026-10-12" ++ "\n" ++ "12:00" ++ "\n" ++ format04d 41 ++ "\n") :=
  claim_C9
    (fun q => if q = "./common.sh" then some ""
      else if q = "./.count" then some "41" else none)
    (fun _ => none) (fun _ => none) "." "2026-10-12" "12:00" (some 1) none "41" 41
    rfl rfl (by decide)

/-! ### Claims about the Benchmark Aggregator (`post.py`) -/

/-- C6: with two input files each containing the single data row
`4 1.0 2.0 3.0 6.0` (supplied in reverse order), the summary table has
exactly two rows, in sorted-filename order, and each row equals that file's
single-sample mean, i.e. the original row values; the summary text written to
the output path renders exactly those two rows. -/
theorem claim_C6 (f1 f2 out : String) (h12 : f1 < f2) :
    Post.pySorted [f2, f1] = [f1, f2] ∧
    (Post.main
        (fun q => if q = f1 then some "4 1.0 2.0 3.0 6.0"
          else if q = f2 then some "4 1.0 2.0 3.0 6.0" else none) [f2, f1] out).2
      = some [[4, 1, 2, 3, 6], [4, 1, 2, 3, 6]] ∧
    (Post.main
        (fun q => if q = f1 then some "4 1.0 2.0 3.0 6.0"
          else if q = f2 then some "4 1.0 2.0 3.0 6.0" else none) [f2, f1] out).1 out
      = some (Post.summaryToString [[4, 1, 2, 3, 6], [4, 1, 2, 3, 6]]) ∧
    Post.meanRow [[4, 1, 2, 3, 6]] = [4, 1, 2, 3, 6] := by
  have hne : f2 ≠ f1 := (ne_of_lt h12).symm
  set c : String := "4 1.0 2.0 3.0 6.0" with hcdef
  set fs0 : FS :=
    (fun q => if q = f1 then some c else if q = f2 then some c else none) with hfs
  have hf1 : fs0 f1 = some c := by simp [hfs]
  have hf2 : FS.write fs0 f1 (c ++ Post.describeToString [[4, 1, 2, 3, 6]]) f2 = some c := by
    rw [FS.write_other _ _ hne]
    simp [hfs, hne]
  have h1 : Post.loop fs0 [] [f1, f2]
      = Post.loop (FS.write fs0 f1 (c ++ Post.describeToString [[4, 1, 2, 3, 6]]))
          [[4, 1, 2, 3, 6]] [f2] := by
    simp only [hcdef, Post.loop, hf1, parseCSV_sample, meanRow_single, List.nil_append]
  have h2 : Post.loop (FS.write fs0 f1 (c ++ Post.describeToString [[4, 1, 2, 3, 6]]))
      [[4, 1, 2, 3, 6]] [f2]
      = (FS.write (FS.write fs0 f1 (c ++ Post.describeToString [[4, 1, 2, 3, 6]])) f2
          (c ++ Post.describeToString [[4, 1, 2, 3, 6]]),
         Except.ok [[4, 1, 2, 3, 6], [4, 1, 2, 3, 6]]) := by
    simp only [hcdef, Post.loop, hf2, parseCSV_sample, meanRow_single, List.cons_append,
      List.nil_append]
  have hmain : Post.main fs0 [f2, f1] out
      = (FS.write
          (FS.write (FS.write fs0 f1 (c ++ Post.describeToString [[4, 1, 2, 3, 6]])) f2
            (c ++ Post.describeToString [[4, 1, 2, 3, 6]])) out
          (Post.summaryToString [[4, 1, 2, 3, 6], [4, 1, 2, 3, 6]]),
         some [[4, 1, 2, 3, 6], [4, 1, 2, 3, 6]]) := by
    rw [Post.main.eq_def, pySorted_pair h12, h1, h2]
  refine ⟨pySorted_pair h12, ?_, ?_, meanRow_single 4 1 2 3 6⟩
  · rw [hmain]
  · rw [hmain]
    exact FS.write_self ..

/-- Witness for C6 on concrete file names. -/
theorem claim_C6_witness :
    (Post.main
        (fun q => if q = "a.dat" then some "4 1.0 2.0 3.0 6.0"
          else if q = "b.dat" then some "4 1.0 2.0 3.0 6.0" else none)
        ["b.dat", "a.dat"] "summary.txt").2
      = some [[4, 1, 2, 3, 6], [4, 1, 2, 3, 6]] :=
  (claim_C6 "a.dat" "b.dat" "summary.txt"
    (by rw [String.lt_iff_toList_lt]; decide)).2.1

/-- C7: the summary produced by the aggregator is invariant under permutation
of the `--files` arguments, because the rows follow the unique
lexicographically sorted order of the supplied paths. -/
theorem claim_C7 (fs : FS) (out : String) (l1 l2 : List String)
    (h : List.Perm l1 l2) :
    Post.main fs l1 out = Post.main fs l2 out ∧
    Post.pySorted l1 = Post.pySorted l2 ∧
    List.Sorted (· ≤ ·) (Post.pySorted l1) ∧
    List.Perm (Post.pySorted l1) l1 := by
  refine ⟨?_, pySorted_eq_of_perm h, pySorted_sorted l1, pySorted_perm l1⟩
  rw [Post.main.eq_def, Post.main.eq_def, pySorted_eq_of_perm h]

/-- Witness for C7 on a concrete permutation. -/
theorem claim_C7_witness :
    Post.main (fun _ => none) ["b", "a"] "o" = Post.main (fun _ => none) ["a", "b"] "o" :=
  (claim_C7 (fun _ => none) "o" ["b", "a"] ["a", "b"] (List.Perm.swap "a" "b" [])).1

/-- C10, counterexample: when the output path coincides with an input path,
the final `open(output, 'w')` truncates that input file and replaces its
content with the summary table, whose text begins with the column-header line
-- so the pre-run content (beginning `4 ...`) is not a prefix of the post-run
content.  The claim as stated, quantifying over *every* input file, is
false. -/
theorem claim_C10_counterexample :
    (Post.main (fun q => if q = "a.dat" then some "4 1.0 2.0 3.0 6.0" else none)
        ["a.dat"] "a.dat").1 "a.dat"
      = some (Post.summaryToString [[4, 1, 2, 3, 6]]) ∧
    ¬ ∃ t, Post.summaryToString [[4, 1, 2, 3, 6]] = "4 1.0 2.0 3.0 6.0" ++ t := by
  constructor
  · set c : String := "4 1.0 2.0 3.0 6.0" with hcdef
    set fs0 : FS := (fun q => if q = "a.dat" then some c else none) with hfs
    have hf : fs0 "a.dat" = some c := by simp [hfs]
    have h1 : Post.loop fs0 [] ["a.dat"]
        = (FS.write fs0 "a.dat" (c ++ Post.describeToString [[4, 1, 2, 3, 6]]),
           Except.ok [[4, 1, 2, 3, 6]]) := by
      simp only [hcdef, Post.loop, hf, parseCSV_sample, meanRow_single, List.nil_append]
    have hmain : Post.main fs0 ["a.dat"] "a.dat"
        = (FS.write (FS.write fs0 "a.dat" (c ++ Post.describeToString [[4, 1, 2, 3, 6]]))
            "a.dat" (Post.summaryToString [[4, 1, 2, 3, 6]]),
           some [[4, 1, 2, 3, 6]]) := by
      rw [Post.main.eq_def, show Post.pySorted ["a.dat"] = ["a.dat"] from rfl, h1]
    rw [hmain]
    show FS.write (FS.write fs0 "a.dat" (c ++ Post.describeToString [[4, 1, 2, 3, 6]]))
        "a.dat" (Post.summaryToString [[4, 1, 2, 3, 6]]) "a.dat"
      = some (Post.summaryToString [[4, 1, 2, 3, 6]])
    exact FS.write_self ..
  · rintro ⟨t, ht⟩
    have hhead : (Post.summaryToString [[4, 1, 2, 3, 6]]).data.head?
        = (("4 1.0 2.0 3.0 6.0" : String) ++ t).data.head? := congrArg (fun x => x.data.head?) ht
    have hL : (Post.summaryToString [[4, 1, 2, 3, 6]]).data.head? = some 'b' := by
      rw [Post.summaryToString, String.data_append]
      rfl
    have hR : (("4 1.0 2.0 3.0 6.0" : String) ++ t).data.head? = some '4' := by
      rw [String.data_append]
      rfl
    rw [hL, hR] at hhead
    exact absurd hhead (by decide)

/-- C10, amended: for every input file whose path differs from the output
path, the file's pre-run content is a byte-for-byte prefix of its post-run
content -- the loop only ever appends the statistics block(s) to it. -/
theorem claim_C10_amended (fs : FS) (files : List String) (output f old : String)
    (hmem : f ∈ files) (hne : f ≠ output) (hold : fs f = some old) :
    ∃ new, (Post.main fs files output).1 f = some new ∧ ∃ t, new = old ++ t := by
  obtain ⟨t, ht⟩ := loop_extends (Post.pySorted files) fs [] f old hold
  rw [Post.main.eq_def]
  cases hlp : Post.loop fs [] (Post.pySorted files) with
  | mk fs' r =>
    rw [hlp] at ht
    cases r with
    | error e => exact ⟨old ++ t, ht, t, rfl⟩
    | ok da =>
      refine ⟨old ++ t, ?_, t, rfl⟩
      show FS.write fs' output (Post.summaryToString da) f = some (old ++ t)
      rw [FS.write_other _ _ hne]
      exact ht

/-- Witness for the amended C10 on a concrete run. -/
theorem claim_C10_amended_witness :
    ∃ new, (Post.main (fun q => if q = "a.dat" then some "4 1.0 2.0 3.0 6.0" else none)
        ["a.dat"] "out.txt").1 "a.dat" = some new ∧
      ∃ t, new = "4 1.0 2.0 3.0 6.0" ++ t :=
  claim_C10_amended (fun q => if q = "a.dat" then some "4 1.0 2.0 3.0 6.0" else none)
    ["a.dat"] "out.txt" "a.dat" "4 1.0 2.0 3.0 6.0" (by decide) (by decide) (by decide)
